import Mathlib

/-!
Shallow embedding of the chat/feedback batch pipeline
(`chat_data.py`, `feedback_data_v2.py`, `get_show_data.py`, `db_utils.py`).

JSON blobs are modelled as already-decoded structured values; a blob whose
decoding raises in Python is modelled as `none`.  Nullable JSON fields are
`Option`s; timestamps are seconds-since-epoch naturals.
-/

/-- One entry of `history.messages` in a chat blob (`hist` in
`_parse_chat_messages`): role, model, models, parentId, childrenIds,
timestamp, content, each read with `.get` and hence nullable. -/
structure MessageNode where
  role : Option String
  model : Option String
  models : Option (List String)
  parentId : Option String
  childrenIds : Option (List String)
  timestamp : Option Nat
  content : Option String
deriving DecidableEq

/-- The decoded chat blob `chat_` of one conversation: `id`, `title`,
`models` (default `[]`), and `history.messages` as an association list
keyed by message-id (insertion order preserved, as in a Python dict). -/
structure ChatJson where
  id : Option String
  title : Option String
  models : List String
  messages : List (String × MessageNode)
deriving DecidableEq

/-- One row of the chat table joined with the user name
(`_fetch_raw_chat_data`).  `chat = none` models a `chat` payload whose
`json.loads` raises (or a row access raising `KeyError`). -/
structure ChatRow where
  user_id : Option String
  name : Option String
  created_at : Option Nat
  updated_at : Option Nat
  chat : Option ChatJson
deriving DecidableEq

/-- One flattened message record appended to `chat_data` in
`_parse_chat_messages`. -/
structure FlatMsg where
  chat_id : Option String
  chat_user_id : Option String
  chat_title : Option String
  chat_model : List String
  last_chat_model : Option String
  chat_created_at : Option Nat
  chat_updated_at : Option Nat
  user_name : Option String
  role : Option String
  model : Option String
  models : Option (List String)
  message_id : String
  parentId : Option String
  last_child_id : Option String
  childrenIds : Option (List String)
  created_at : Option Nat
  content : Option String
deriving DecidableEq

/-- The user-name denylist of the chat path
(`if user_name in ['dali', 'cz', ' cz']: continue`). -/
def chatDenylist : List String := ["dali", "cz", " cz"]

/-- Whether the chat path drops a row for its user name (`None` is never
a member of the Python list literal). -/
def nameBlockedChat (n : Option String) : Bool :=
  match n with
  | some s => chatDenylist.contains s
  | none => false

/-- The record built for one `(msg_id, hist)` entry of a conversation. -/
def mkFlatMsg (r : ChatRow) (c : ChatJson) (e : String × MessageNode) : FlatMsg :=
  { chat_id := c.id
    chat_user_id := r.user_id
    chat_title := c.title
    chat_model := c.models
    last_chat_model := c.models.getLast?
    chat_created_at := r.created_at
    chat_updated_at := r.updated_at
    user_name := r.name
    role := e.2.role
    model := e.2.model
    models := e.2.models
    message_id := e.1
    parentId := e.2.parentId
    last_child_id := (e.2.childrenIds.getD []).getLast?
    childrenIds := e.2.childrenIds
    created_at := e.2.timestamp
    content := e.2.content }

/-- The records one chat row contributes: none when its blob fails to
decode (the `except` branch skips the row) or its user name is
denylisted, otherwise one record per message entry. -/
def flattenRow (r : ChatRow) : List FlatMsg :=
  match r.chat with
  | none => []
  | some c =>
    if nameBlockedChat r.name then []
    else c.messages.map (fun e => mkFlatMsg r c e)

/-- `_parse_chat_messages`: the per-row loop with its per-row
`try/except continue`. -/
def parseChatMessages : List ChatRow → List FlatMsg
  | [] => []
  | r :: rs => flattenRow r ++ parseChatMessages rs

/-- One row of `responses_to_merge` in `_create_chat_view`: the
response's `parentId` renamed to `message_id` (the join key), its own id
renamed to `answer_message_id`, its content to `respond_content`. -/
structure RespToMerge where
  message_id : Option String
  answer_message_id : String
  respond_content : Option String
  created_at : Option Nat
deriving DecidableEq

/-- Sort key of `sort_values('created_at', ascending=False)`: null
timestamps sort last (below every real timestamp). -/
def tsKey : Option Nat → Nat
  | none => 0
  | some t => t + 1

def toResp (m : FlatMsg) : RespToMerge :=
  { message_id := m.parentId
    answer_message_id := m.message_id
    respond_content := m.content
    created_at := m.created_at }

/-- Stable descending insertion: an element coming earlier in the input
stays before later elements with an equal key. -/
def insertD (x : RespToMerge) : List RespToMerge → List RespToMerge
  | [] => [x]
  | y :: ys => if tsKey y.created_at ≤ tsKey x.created_at then x :: y :: ys
               else y :: insertD x ys

/-- `sort_values('created_at', ascending=False)` modelled as a stable
descending sort by timestamp. -/
def sortD : List RespToMerge → List RespToMerge
  | [] => []
  | x :: xs => insertD x (sortD xs)

/-- `drop_duplicates(subset=['message_id'], keep='first')`: keep the
first row carrying each join key. -/
def dedupBy (seen : List (Option String)) : List RespToMerge → List RespToMerge
  | [] => []
  | x :: xs =>
    if x.message_id ∈ seen then dedupBy seen xs
    else x :: dedupBy (x.message_id :: seen) xs

def dropDupFirst (l : List RespToMerge) : List RespToMerge := dedupBy [] l

/-- One output row of `_create_chat_view`: the query record with the
merged answer columns (both null when the left join finds no match). -/
structure QAPair where
  flat : FlatMsg
  answer_message_id : Option String
  respond_content : Option String
deriving DecidableEq

/-- `queries = chat_data_pd[chat_data_pd.role == "user"]`. -/
def qaQueries (chatData : List FlatMsg) : List FlatMsg :=
  chatData.filter (fun m => m.role == some "user")

/-- `responses = chat_data_pd[chat_data_pd.role == "assistant"]`. -/
def qaResponses (chatData : List FlatMsg) : List FlatMsg :=
  chatData.filter (fun m => m.role == some "assistant")

/-- `responses_to_merge` after the sort and the de-duplication: at most
one (the latest) response row per `parentId` join key. -/
def qaMerged (chatData : List FlatMsg) : List RespToMerge :=
  dropDupFirst (sortD ((qaResponses chatData).map toResp))

/-- One row of the left merge `queries.merge(responses_to_merge,
on='message_id', how='left')`: the unique surviving response whose key
equals the query's message id, or null columns when there is none. -/
def pairQuery (merged : List RespToMerge) (q : FlatMsg) : QAPair :=
  match merged.find? (fun r => r.message_id == some q.message_id) with
  | some r => { flat := q, answer_message_id := some r.answer_message_id,
                respond_content := r.respond_content }
  | none => { flat := q, answer_message_id := none, respond_content := none }

/-- `_create_chat_view`: split by role, sort the responses by timestamp
descending, keep the first (latest) response per `parentId`, and
left-join every user record to the surviving response whose `parentId`
equals its message id. -/
def createChatView (chatData : List FlatMsg) : List QAPair :=
  if chatData = [] then []
  else (qaQueries chatData).map (pairQuery (qaMerged chatData))

/-- The decoded `data` blob of a feedback row (`_parse_feedback_entries`):
`rating`, `feedbackStatus` (default `[]`), `ratingText` / `improveText`
(default `""`), the optional `comment` key and `details.rating`. -/
structure FeedbackData where
  rating : Option Int
  feedbackStatus : List String
  ratingText : String
  improveText : String
  comment : Option String
  detailsRating : Option Int
deriving DecidableEq

/-- The decoded `meta` blob: only `message_id` is consulted. -/
structure MetaJson where
  message_id : Option String
deriving DecidableEq

/-- The decoded `snapshot` blob: the path
`snapshot.chat.chat.history.messages` with `{}` defaults at every hop,
so only the final message map matters (empty when any hop is missing). -/
structure SnapshotJson where
  messages : List (String × MessageNode)
deriving DecidableEq

/-- One row of the feedback table joined with the user name.  A `none`
blob models a `json.loads` failure (the `except` branch skips the row). -/
structure FeedbackRow where
  id : String
  user_id : Option String
  name : Option String
  snapshot : Option SnapshotJson
  data : Option FeedbackData
  meta : Option MetaJson
deriving DecidableEq

/-- One record appended to `feedback_data`. -/
structure FeedbackOut where
  feedback_id : String
  user_id : Option String
  user_name : Option String
  good_or_bad : String
  rating_score : Int
  rating_comment : String
  query : Option String
  answer : Option String
  model : Option String
  message_id : String
  parentId : Option String
  created_at : Option Nat
deriving DecidableEq

/-- The user-name denylist of the feedback path
(`if name in ['cz', ' cz']: continue`). -/
def feedbackDenylist : List String := ["cz", " cz"]

def nameBlockedFeedback (n : Option String) : Bool :=
  match n with
  | some s => feedbackDenylist.contains s
  | none => false

/-- The classification block of `_parse_feedback_entries` (the chain of
`if rating == -1 or feedbackStatus == "stepOn" ... else continue`),
returning the `rating_str` and the `comment` it selects, or `none` when
the event is excluded.  `feedbackStatus` is replaced by its last entry
when the list is non-empty, exactly as `feedbackStatus[-1]`. -/
def classifyFeedback (d : FeedbackData) : Option (String × String) :=
  let fs := d.feedbackStatus.getLast?
  if d.rating = some (-1) ∨ fs = some "stepOn" then some ("bad", d.ratingText)
  else if d.rating = some 1 ∨ fs = some "like" then some ("good", d.ratingText)
  else if fs = some "improve" then some ("improve", d.improveText)
  else none

/-- `history_messages.get(mid)` on the message map. -/
def lookupMsg (msgs : List (String × MessageNode)) (mid : String) : Option MessageNode :=
  (msgs.find? (fun p => p.1 == mid)).map (fun p => p.2)

/-- `history_messages.get(parentId) if parentId else None`: a null or
empty (falsy) parent id yields no query node. -/
def queryInfoOf (msgs : List (String × MessageNode)) (parentId : Option String) :
    Option MessageNode :=
  match parentId with
  | none => none
  | some pid => if pid = "" then none else lookupMsg msgs pid

/-- The per-row body of `_parse_feedback_entries` after the three blobs
decoded: classify (no recognized signal skips the row), drop denylisted
user names, require a truthy `message_id` and a non-empty message map,
require the target message to be present, then emit the record — with
the query fields resolved through one parent hop and null when that hop
fails, and the timestamp taken from the target message. -/
def processFeedbackChecked (r : FeedbackRow) (snap : SnapshotJson)
    (d : FeedbackData) (meta : MetaJson) : Option FeedbackOut :=
  match classifyFeedback d with
  | none => none
  | some (ratingStr, c) =>
    if nameBlockedFeedback r.name then none
    else
      match meta.message_id with
      | none => none
      | some mid =>
        if mid = "" then none
        else if snap.messages = [] then none
        else
          match lookupMsg snap.messages mid with
          | none => none
          | some answer =>
            some { feedback_id := r.id
                   user_id := r.user_id
                   user_name := r.name
                   good_or_bad := ratingStr
                   rating_score := d.detailsRating.getD (-99)
                   rating_comment := d.comment.getD c
                   query := (queryInfoOf snap.messages answer.parentId).bind
                     (fun q => q.content)
                   answer := answer.content
                   model := answer.model
                   message_id := mid
                   parentId := answer.parentId
                   created_at := answer.timestamp }

/-- The body of the per-row loop of `_parse_feedback_entries`: the three
`json.loads` calls (any failure lands in the `except` branch, skipping
the row), then the checked stage. -/
def processFeedbackRow (r : FeedbackRow) : Option FeedbackOut :=
  match r.snapshot, r.data, r.meta with
  | some snap, some d, some meta => processFeedbackChecked r snap d meta
  | _, _, _ => none

/-- `_parse_feedback_entries`: the per-row loop, skipped rows contribute
nothing. -/
def parseFeedbackEntries : List FeedbackRow → List FeedbackOut
  | [] => []
  | r :: rs =>
    match processFeedbackRow r with
    | some o => o :: parseFeedbackEntries rs
    | none => parseFeedbackEntries rs

/-- The model rename chain of `generate_summary_stats`:
`.replace('星伴V1.1', '聆境 1.1').replace('聆镜 1.1', '聆境 1.1')`. -/
def renameModel (m : String) : String :=
  let m1 := if m = "星伴V1.1" then "聆境 1.1" else m
  if m1 = "聆镜 1.1" then "聆境 1.1" else m1

/-- `not_use_model_list` of `generate_summary_stats`. -/
def notUseModelList : List String := ["星伴V1.1", "星伴v1.2", "arena-model"]

/-- The model-column preprocessing applied before every aggregate:
rename first, then filter out the deprecated list
(`chat_df[~chat_df['last_chat_model'].isin(not_use_model_list)]`). -/
def preprocessModels (ms : List String) : List String :=
  (ms.map renameModel).filter (fun m => !(notUseModelList.contains m))

/-- `model_usage` for one model after preprocessing (`value_counts`). -/
def modelUsageCount (ms : List String) (m : String) : Nat :=
  (preprocessModels ms).count m

/-- `overall_stats.feedback_ratio`:
`len(feedback_df) / len(chat_df) if len(chat_df) > 0 else 0`. -/
def overallFeedbackRatio (nFeedback nChat : Nat) : ℚ :=
  if nChat > 0 then (nFeedback : ℚ) / (nChat : ℚ) else 0

/-- The per-day counters entering step 4.2 of `generate_summary_stats`. -/
structure DailyCounts where
  usage : Nat
  feedback : Nat
  good : Nat
  bad : Nat
  improve : Nat
deriving DecidableEq

/-- The four derived per-day rates. -/
structure DailyRates where
  feedback_ratio : ℚ
  excellent_rate : ℚ
  error_rate : ℚ
  improve_rate : ℚ
deriving DecidableEq

/-- Step 4.2: each rate is the quotient where `usage_count > 0` and `0`
otherwise (`.where(daily_stats['usage_count'] > 0, 0)`). -/
def computeDailyRates (d : DailyCounts) : DailyRates :=
  { feedback_ratio := if d.usage > 0 then (d.feedback : ℚ) / (d.usage : ℚ) else 0
    excellent_rate := if d.usage > 0 then (d.good : ℚ) / (d.usage : ℚ) else 0
    error_rate := if d.usage > 0 then (d.bad : ℚ) / (d.usage : ℚ) else 0
    improve_rate := if d.usage > 0 then (d.improve : ℚ) / (d.usage : ℚ) else 0 }

/-- The record store: the two tables the pipeline reads. -/
structure DB where
  chatRows : List ChatRow
  feedbackRows : List FeedbackRow

/-- `get_db_engine`: raises `FileNotFoundError` when the database file
does not exist (`none`), otherwise yields the store. -/
def getDbEngineM (db : Option DB) : Except String DB :=
  match db with
  | some d => Except.ok d
  | none => Except.error "FileNotFoundError"

/-- The `try` body of `get_chat_data`: acquire the engine, fetch, parse,
pair; any failure propagates as an error. -/
def getChatDataE (db : Option DB) : Except String (List QAPair) :=
  match getDbEngineM db with
  | Except.ok d => Except.ok (createChatView (parseChatMessages d.chatRows))
  | Except.error e => Except.error e

/-- `get_chat_data`: the `except Exception` handler turns every failure
into an empty result. -/
def getChatData (db : Option DB) : List QAPair :=
  match getChatDataE db with
  | Except.ok v => v
  | Except.error _ => []

/-- The `try` body of `get_feedback_data`. -/
def getFeedbackDataE (db : Option DB) : Except String (List FeedbackOut) :=
  match getDbEngineM db with
  | Except.ok d => Except.ok (parseFeedbackEntries d.feedbackRows)
  | Except.error e => Except.error e

/-- `get_feedback_data`: likewise returns an empty result on any failure. -/
def getFeedbackData (db : Option DB) : List FeedbackOut :=
  match getFeedbackDataE db with
  | Except.ok v => v
  | Except.error _ => []

/-! ### Concrete inputs used to settle the claims -/

/-- A message node with the fields the claims exercise. -/
def mkNode (role model parentId : Option String) (ts : Option Nat)
    (content : Option String) : MessageNode :=
  { role := role, model := model, models := none, parentId := parentId,
    childrenIds := none, timestamp := ts, content := content }

/-- A flattened record of conversation `cid` (shorthand for examples). -/
def mkFlatEx (cid roleS mid : String) (pid : Option String) (ts : Nat) : FlatMsg :=
  { chat_id := some cid, chat_user_id := some "u1", chat_title := none,
    chat_model := [], last_chat_model := none, chat_created_at := none,
    chat_updated_at := none, user_name := some "alice", role := some roleS,
    model := none, models := none, message_id := mid, parentId := pid,
    last_child_id := none, childrenIds := none, created_at := some ts,
    content := some mid }

/-- The blob of conversation `A`: a single user message with id `m1` and
no answer. -/
def chatA : ChatJson :=
  { id := some "A", title := some "tA", models := ["m"],
    messages := [("m1", mkNode (some "user") none none (some 10) (some "qA"))] }

def rowA : ChatRow :=
  { user_id := some "u1", name := some "alice", created_at := some 100,
    updated_at := some 100, chat := some chatA }

/-- The blob of conversation `B`: a user message whose id collides with
`A`'s (`m1`) and an assistant answer `a1` to it. -/
def chatB : ChatJson :=
  { id := some "B", title := some "tB", models := ["m"],
    messages := [("m1", mkNode (some "user") none none (some 11) (some "qB")),
                 ("a1", mkNode (some "assistant") (some "m") (some "m1")
                   (some 20) (some "ansB"))] }

def rowB : ChatRow :=
  { user_id := some "u2", name := some "bob", created_at := some 100,
    updated_at := some 100, chat := some chatB }

/-- A query with two answers carrying exactly equal timestamps, answers
listed in the order `a1`, `a2`. -/
def exTieA : List FlatMsg :=
  [mkFlatEx "C" "user" "q1" none 10,
   mkFlatEx "C" "assistant" "a1" (some "q1") 50,
   mkFlatEx "C" "assistant" "a2" (some "q1") 50]

/-- The same three records with the two answers transposed. -/
def exTieB : List FlatMsg :=
  [mkFlatEx "C" "user" "q1" none 10,
   mkFlatEx "C" "assistant" "a2" (some "q1") 50,
   mkFlatEx "C" "assistant" "a1" (some "q1") 50]

/-- A query with three answers timestamped 10 < 20 < 30. -/
def exThree : List FlatMsg :=
  [mkFlatEx "C" "user" "q1" none 5,
   mkFlatEx "C" "assistant" "a1" (some "q1") 10,
   mkFlatEx "C" "assistant" "a2" (some "q1") 20,
   mkFlatEx "C" "assistant" "a3" (some "q1") 30]

/-- The chat-view row produced for the query of `exThree`. -/
def exThreePair : QAPair :=
  { flat := mkFlatEx "C" "user" "q1" none 5,
    answer_message_id := some "a3", respond_content := some "a3" }

/-- A snapshot holding an answer node `ans` whose parent `qq` is also
present. -/
def snapFull : SnapshotJson :=
  { messages :=
      [("ans", mkNode (some "assistant") (some "m") (some "qq") (some 20) (some "A")),
       ("qq", mkNode (some "user") none none (some 10) (some "Q"))] }

/-- A snapshot that does not contain the id `gone`. -/
def snapNoTarget : SnapshotJson :=
  { messages :=
      [("other", mkNode (some "assistant") (some "m") none (some 20) (some "A"))] }

/-- A snapshot whose only node points at a parent absent from the map. -/
def snapDangling : SnapshotJson :=
  { messages :=
      [("ans", mkNode (some "assistant") (some "m") (some "gone") (some 20) (some "A"))] }

/-- A `data` blob carrying no recognized signal: `rating` 0 and
`feedbackStatus` `["other"]`. -/
def dataOther : FeedbackData :=
  { rating := some 0, feedbackStatus := ["other"], ratingText := "rt",
    improveText := "it", comment := none, detailsRating := none }

/-- A `data` blob with `rating` -1. -/
def dataBad : FeedbackData :=
  { rating := some (-1), feedbackStatus := [], ratingText := "rt",
    improveText := "it", comment := none, detailsRating := none }

/-- A `data` blob with `rating` 1. -/
def dataGood : FeedbackData :=
  { rating := some 1, feedbackStatus := [], ratingText := "rt",
    improveText := "it", comment := none, detailsRating := none }

/-- A feedback row with no recognized signal, everything else
well-formed (the target message exists in the snapshot). -/
def exOther : FeedbackRow :=
  { id := "f0", user_id := some "u1", name := some "alice",
    snapshot := some snapFull, data := some dataOther,
    meta := some { message_id := some "ans" } }

/-- A feedback row whose target message id is absent from the snapshot
tree. -/
def exMissingTarget : FeedbackRow :=
  { id := "f1", user_id := some "u1", name := some "alice",
    snapshot := some snapNoTarget, data := some dataBad,
    meta := some { message_id := some "gone" } }

/-- A feedback row whose target exists but whose parent pointer dangles. -/
def exDanglingParent : FeedbackRow :=
  { id := "f2", user_id := some "u1", name := some "alice",
    snapshot := some snapDangling, data := some dataBad,
    meta := some { message_id := some "ans" } }

/-- A fully well-formed feedback row submitted by user `dali`. -/
def exDali : FeedbackRow :=
  { id := "f3", user_id := some "u9", name := some "dali",
    snapshot := some snapFull, data := some dataGood,
    meta := some { message_id := some "ans" } }

/-- The blob of a well-formed conversation whose message map is empty. -/
def chatEmptyMsgs : ChatJson :=
  { id := some "A", title := some "t", models := ["m"], messages := [] }

/-- A well-formed, non-denylisted conversation whose message map is
empty. -/
def exEmptyConv : ChatRow :=
  { user_id := some "u1", name := some "alice", created_at := some 100,
    updated_at := some 100, chat := some chatEmptyMsgs }

/-- A `data` blob with the given rating, status list and free-text
fields, no `comment` key and no `details.rating`. -/
def mkData (rating : Option Int) (fs : List String) (rt it : String) : FeedbackData :=
  { rating := rating, feedbackStatus := fs, ratingText := rt, improveText := it,
    comment := none, detailsRating := none }

/-- A chat row whose blob fails to decode. -/
def exBadRow : ChatRow :=
  { user_id := some "u1", name := some "alice", created_at := some 100,
    updated_at := some 100, chat := none }

/-- The record the feedback path emits for `exDali`. -/
def exDaliOut : FeedbackOut :=
  { feedback_id := "f3", user_id := some "u9", user_name := some "dali",
    good_or_bad := "good", rating_score := -99, rating_comment := "rt",
    query := some "Q", answer := some "A", model := some "m",
    message_id := "ans", parentId := some "qq", created_at := some 20 }

/-- The record the feedback path emits for `exDanglingParent`. -/
def exDanglingOut : FeedbackOut :=
  { feedback_id := "f2", user_id := some "u1", user_name := some "alice",
    good_or_bad := "bad", rating_score := -99, rating_comment := "rt",
    query := none, answer := some "A", model := some "m",
    message_id := "ans", parentId := some "gone", created_at := some 20 }

/-! ### Helper lemmas about the sort / de-duplication pipeline -/

theorem mem_insertD {x a : RespToMerge} {l : List RespToMerge} :
    a ∈ insertD x l ↔ a = x ∨ a ∈ l := by
  induction l with
  | nil => simp [insertD]
  | cons y ys ih =>
    by_cases h : tsKey y.created_at ≤ tsKey x.created_at
    · simp [insertD, h]
    · simp [insertD, h, ih]
      tauto

theorem pairwise_insertD {x : RespToMerge} {l : List RespToMerge}
    (h : l.Pairwise (fun a b => tsKey b.created_at ≤ tsKey a.created_at)) :
    (insertD x l).Pairwise (fun a b => tsKey b.created_at ≤ tsKey a.created_at) := by
  induction l with
  | nil => simp [insertD]
  | cons y ys ih =>
    rcases List.pairwise_cons.mp h with ⟨hy, hys⟩
    by_cases hxy : tsKey y.created_at ≤ tsKey x.created_at
    · simp only [insertD, if_pos hxy]
      refine List.pairwise_cons.mpr ⟨?_, h⟩
      intro b hb
      rcases List.mem_cons.mp hb with rfl | hb
      · exact hxy
      · exact le_trans (hy b hb) hxy
    · simp only [insertD, if_neg hxy]
      refine List.pairwise_cons.mpr ⟨?_, ih hys⟩
      intro b hb
      rcases mem_insertD.mp hb with rfl | hb
      · exact le_of_lt (lt_of_not_le hxy)
      · exact hy b hb

theorem mem_sortD {a : RespToMerge} {l : List RespToMerge} :
    a ∈ sortD l ↔ a ∈ l := by
  induction l with
  | nil => simp [sortD]
  | cons x xs ih => simp [sortD, mem_insertD, ih]

theorem pairwise_sortD (l : List RespToMerge) :
    (sortD l).Pairwise (fun a b => tsKey b.created_at ≤ tsKey a.created_at) := by
  induction l with
  | nil => simp [sortD]
  | cons x xs ih =>
    simp only [sortD]
    exact pairwise_insertD ih

theorem mem_of_mem_dedupBy {r : RespToMerge} {l : List RespToMerge} :
    ∀ {seen : List (Option String)}, r ∈ dedupBy seen l → r ∈ l := by
  induction l with
  | nil => intro seen h; simp [dedupBy] at h
  | cons x xs ih =>
    intro seen h
    by_cases hs : x.message_id ∈ seen
    · simp only [dedupBy, if_pos hs] at h
      exact List.mem_cons_of_mem _ (ih h)
    · simp only [dedupBy, if_neg hs] at h
      rcases List.mem_cons.mp h with rfl | h
      · exact List.mem_cons_self _ _
      · exact List.mem_cons_of_mem _ (ih h)

theorem notSeen_of_mem_dedupBy {r : RespToMerge} {l : List RespToMerge} :
    ∀ {seen : List (Option String)}, r ∈ dedupBy seen l → r.message_id ∉ seen := by
  induction l with
  | nil => intro seen h; simp [dedupBy] at h
  | cons x xs ih =>
    intro seen h
    by_cases hs : x.message_id ∈ seen
    · simp only [dedupBy, if_pos hs] at h
      exact ih h
    · simp only [dedupBy, if_neg hs] at h
      rcases List.mem_cons.mp h with rfl | h
      · exact hs
      · intro hmem
        exact ih h (List.mem_cons_of_mem _ hmem)

theorem dedupBy_max {r : RespToMerge} {l : List RespToMerge}
    (hp : l.Pairwise (fun a b => tsKey b.created_at ≤ tsKey a.created_at)) :
    ∀ {seen : List (Option String)}, r ∈ dedupBy seen l →
      ∀ r' ∈ l, r'.message_id = r.message_id →
        tsKey r'.created_at ≤ tsKey r.created_at := by
  induction l with
  | nil => intro seen h; simp [dedupBy] at h
  | cons x xs ih =>
    rcases List.pairwise_cons.mp hp with ⟨hx, hxs⟩
    intro seen hr r' hr' hkey
    by_cases hs : x.message_id ∈ seen
    · simp only [dedupBy, if_pos hs] at hr
      rcases List.mem_cons.mp hr' with rfl | hr'2
      · exfalso
        apply notSeen_of_mem_dedupBy hr
        rw [← hkey]
        exact hs
      · exact ih hxs hr r' hr'2 hkey
    · simp only [dedupBy, if_neg hs] at hr
      rcases List.mem_cons.mp hr with rfl | hr2
      · rcases List.mem_cons.mp hr' with rfl | hr'2
        · exact le_refl _
        · exact hx r' hr'2
      · have hnot := notSeen_of_mem_dedupBy hr2
        rcases List.mem_cons.mp hr' with rfl | hr'2
        · exfalso
          apply hnot
          rw [← hkey]
          exact List.mem_cons_self _ _
        · exact ih hxs hr2 r' hr'2 hkey

/-- The left join never alters the query columns. -/
theorem pairQuery_flat (merged : List RespToMerge) (q : FlatMsg) :
    (pairQuery merged q).flat = q := by
  unfold pairQuery
  split <;> rfl

/-- Every chat-view row originates from a user-role input record. -/
theorem mem_createChatView {l : List FlatMsg} {p : QAPair} (hp : p ∈ createChatView l) :
    p.flat ∈ l ∧ p.flat.role = some "user" := by
  by_cases hl : l = []
  · subst hl
    simp [createChatView] at hp
  · rw [createChatView, if_neg hl] at hp
    rcases List.mem_map.mp hp with ⟨q0, hq0, hfq⟩
    rcases List.mem_filter.mp hq0 with ⟨hq0l, hq0r⟩
    have hflat : p.flat = q0 := by rw [← hfq, pairQuery_flat]
    rw [hflat]
    exact ⟨hq0l, by simpa using hq0r⟩

/-! ### C1 -/

/-- C1 (amended): the chat view contains exactly one row per user-role
record of the flattened input — its query columns are the user records
in order, with no duplicate and no silent drop.  (The join itself is
keyed on message-id globally, not per conversation; see the
counterexample.) -/
theorem chatView_one_row_per_user_record (l : List FlatMsg) :
    (createChatView l).map QAPair.flat = l.filter (fun m => m.role == some "user") := by
  by_cases hl : l = []
  · subst hl
    simp [createChatView]
  · rw [createChatView, if_neg hl, List.map_map]
    have h : (QAPair.flat ∘ pairQuery (qaMerged l)) = id := by
      funext q
      exact pairQuery_flat _ q
    rw [h, List.map_id, qaQueries]

/-- C1 is false as stated: with two conversations `A` and `B` whose
message-ids collide (`m1` in both), the query of conversation `A` is
paired with the assistant record `a1`, which exists only in
conversation `B` — the join is not scoped per conversation. -/
theorem chatView_cross_conversation_pairing :
    ((createChatView (parseChatMessages [rowA, rowB])).map
        (fun p => (p.flat.chat_id, p.answer_message_id))) =
      [(some "A", some "a1"), (some "B", some "a1")] ∧
    (((parseChatMessages [rowA, rowB]).filter
        (fun m => m.message_id == "a1")).map (fun m => m.chat_id)) = [some "B"] :=
  ⟨rfl, rfl⟩

/-! ### C2 -/

/-- C2 (amended): any answer attached to a chat-view row is an
assistant record of the input whose `parentId` is the query's message
id, and its timestamp is maximal among all such candidate answers —
this holds for every input list, hence for every input ordering.  (The
tie-break between equal timestamps is input-order dependent, not by
message-id; see the counterexample.) -/
theorem qaPairing_selects_latest_answer {l : List FlatMsg} {p : QAPair}
    (hp : p ∈ createChatView l) {aid : String}
    (ha : p.answer_message_id = some aid) :
    ∃ a, a ∈ l ∧ a.role = some "assistant" ∧ a.message_id = aid ∧
      a.parentId = some p.flat.message_id ∧ p.respond_content = a.content ∧
      ∀ b, b ∈ l → b.role = some "assistant" →
        b.parentId = some p.flat.message_id →
        tsKey b.created_at ≤ tsKey a.created_at := by
  by_cases hl : l = []
  · subst hl
    simp [createChatView] at hp
  · rw [createChatView, if_neg hl] at hp
    rcases List.mem_map.mp hp with ⟨q0, hq0, hfq⟩
    have hpflat : p.flat = q0 := by rw [← hfq, pairQuery_flat]
    cases hfind : (qaMerged l).find? (fun r => r.message_id == some q0.message_id) with
    | none =>
      rw [← hfq] at ha
      simp [pairQuery, hfind] at ha
    | some r =>
      have haid : r.answer_message_id = aid := by
        rw [← hfq] at ha
        simpa [pairQuery, hfind] using ha
      have hrmem : r ∈ dedupBy [] (sortD ((qaResponses l).map toResp)) :=
        List.mem_of_find?_eq_some hfind
      have hrkey : r.message_id = some q0.message_id := by
        have h2 := List.find?_some hfind
        simpa using h2
      have hrs : r ∈ sortD ((qaResponses l).map toResp) := mem_of_mem_dedupBy hrmem
      have hrr : r ∈ (qaResponses l).map toResp := mem_sortD.mp hrs
      rcases List.mem_map.mp hrr with ⟨a, hamem, hta⟩
      rcases List.mem_filter.mp hamem with ⟨haL, harole⟩
      refine ⟨a, haL, by simpa using harole, ?_, ?_, ?_, ?_⟩
      · rw [← haid, ← hta]
        rfl
      · rw [hpflat]
        have h3 : (toResp a).message_id = some q0.message_id := by rw [hta]; exact hrkey
        simpa [toResp] using h3
      · rw [← hfq]
        show (pairQuery (qaMerged l) q0).respond_content = a.content
        simp only [pairQuery, hfind]
        rw [← hta]
        rfl
      · intro b hb hrole hpar
        have hbresp : b ∈ qaResponses l := List.mem_filter.mpr ⟨hb, by simp [hrole]⟩
        have hbr : toResp b ∈ (qaResponses l).map toResp :=
          List.mem_map.mpr ⟨b, hbresp, rfl⟩
        have hbs : toResp b ∈ sortD ((qaResponses l).map toResp) := mem_sortD.mpr hbr
        have hkeyb : (toResp b).message_id = r.message_id := by
          rw [hrkey]
          show b.parentId = some q0.message_id
          rw [← hpflat]
          exact hpar
        have h4 := dedupBy_max (pairwise_sortD ((qaResponses l).map toResp)) hrmem
          (toResp b) hbs hkeyb
        rw [← hta] at h4
        exact h4

/-- Witness for C2: with three answers timestamped 10 < 20 < 30, the
paired answer is `a3`, the one timestamped 30. -/
theorem qaPairing_selects_latest_answer_check :
    ∃ a, a ∈ exThree ∧ a.role = some "assistant" ∧ a.message_id = "a3" ∧
      a.parentId = some exThreePair.flat.message_id ∧
      exThreePair.respond_content = a.content ∧
      ∀ b, b ∈ exThree → b.role = some "assistant" →
        b.parentId = some exThreePair.flat.message_id →
        tsKey b.created_at ≤ tsKey a.created_at :=
  @qaPairing_selects_latest_answer exThree exThreePair (by decide) "a3" (by decide)

/-- C2's determinism clause is false: the two inputs are permutations of
one another and the two answers carry exactly equal timestamps, yet the
first ordering pairs `a1` and the second pairs `a2` — the tie-break
depends on the input permutation (and is not message-id lexical order). -/
theorem qaPairing_tie_depends_on_order :
    exTieA.Perm exTieB ∧
    (createChatView exTieA).map QAPair.answer_message_id = [some "a1"] ∧
    (createChatView exTieB).map QAPair.answer_message_id = [some "a2"] :=
  ⟨by decide, rfl, rfl⟩

/-! ### C3 -/

/-- C3 (confirmed): rating -1 classifies as "bad", rating +1 as "good",
a status list ending in "improve" as "improve" with the comment taken
from the improve-text field, and an event with `feedbackStatus`
`["other"]` and rating 0 is excluded from the output entirely. -/
theorem feedback_classification_cases (rt it : String) :
    classifyFeedback (mkData (some (-1)) [] rt it) = some ("bad", rt) ∧
    classifyFeedback (mkData (some 1) [] rt it) = some ("good", rt) ∧
    classifyFeedback (mkData none ["improve"] rt it) = some ("improve", it) ∧
    parseFeedbackEntries [exOther] = [] := by
  refine ⟨?_, ?_, ?_, rfl⟩ <;> simp [classifyFeedback, mkData]

/-! ### C4 -/

/-- Reduction of the row processor once its three blobs decode. -/
theorem processFeedbackRow_eq {r : FeedbackRow} {snap : SnapshotJson}
    {d : FeedbackData} {meta : MetaJson} (hs : r.snapshot = some snap)
    (hd : r.data = some d) (hm : r.meta = some meta) :
    processFeedbackRow r = processFeedbackChecked r snap d meta := by
  obtain ⟨rid, ruid, rname, rsnap, rdata, rmeta⟩ := r
  dsimp only at hs hd hm
  subst hs
  subst hd
  subst hm
  rfl

/-- A row whose `data` blob fails to decode is skipped. -/
theorem processFeedbackRow_data_none {r : FeedbackRow} (hd : r.data = none) :
    processFeedbackRow r = none := by
  obtain ⟨rid, ruid, rname, rsnap, rdata, rmeta⟩ := r
  dsimp only at hd
  subst hd
  cases rsnap <;> cases rmeta <;> rfl

/-- C4: the feedback resolver discards an event whose target message id
is absent from the snapshot tree, but retains an event whose target is
found with a dangling (or null) parent pointer, resolving its query
fields to null; the retained record's timestamp comes from the target
message, not the submission. -/
theorem feedback_resolution_policy (r : FeedbackRow) (snap : SnapshotJson)
    (meta : MetaJson) (mid : String) (hs : r.snapshot = some snap)
    (hm : r.meta = some meta) (hmid : meta.message_id = some mid) :
    (lookupMsg snap.messages mid = none → processFeedbackRow r = none) ∧
    (∀ (d : FeedbackData) (ratingStr c : String) (answer : MessageNode),
      r.data = some d → classifyFeedback d = some (ratingStr, c) →
      nameBlockedFeedback r.name = false → mid ≠ "" → snap.messages ≠ [] →
      lookupMsg snap.messages mid = some answer →
      queryInfoOf snap.messages answer.parentId = none →
      processFeedbackRow r =
        some
          { feedback_id := r.id, user_id := r.user_id,
            user_name := r.name, good_or_bad := ratingStr,
            rating_score := d.detailsRating.getD (-99),
            rating_comment := d.comment.getD c, query := none,
            answer := answer.content, model := answer.model, message_id := mid,
            parentId := answer.parentId, created_at := answer.timestamp }) := by
  constructor
  · intro hlook
    cases hdata : r.data with
    | none => exact processFeedbackRow_data_none hdata
    | some d =>
      rw [processFeedbackRow_eq hs hdata hm]
      unfold processFeedbackChecked
      cases hc : classifyFeedback d with
      | none => rfl
      | some rc =>
        obtain ⟨ratingStr, c⟩ := rc
        by_cases hb : nameBlockedFeedback r.name
        · simp [hb]
        · simp only [hb, hmid, Bool.false_eq_true, if_false]
          split_ifs with h1 h2
          · rfl
          · rfl
          · simp [hlook]
  · intro d ratingStr c answer hd hc hb hmid2 hmsgs hlook hquery
    rw [processFeedbackRow_eq hs hd hm]
    unfold processFeedbackChecked
    simp only [hc, hb, hmid, hlook, hquery, if_neg hmid2, if_neg hmsgs,
      Bool.false_eq_true, if_false, Option.none_bind]

/-- Witness for C4: the event targeting the absent id `gone` is
discarded, while the event whose target `ans` has a dangling parent is
retained with null query and the target's timestamp. -/
theorem feedback_resolution_policy_check :
    processFeedbackRow exMissingTarget = none ∧
    processFeedbackRow exDanglingParent = some exDanglingOut :=
  ⟨(feedback_resolution_policy exMissingTarget snapNoTarget ⟨some "gone"⟩ "gone"
      rfl rfl rfl).1 rfl,
   (feedback_resolution_policy exDanglingParent snapDangling ⟨some "ans"⟩ "ans"
      rfl rfl rfl).2 dataBad "bad" "rt"
      (mkNode (some "assistant") (some "m") (some "gone") (some 20) (some "A"))
      rfl rfl rfl (by decide) (by decide) rfl rfl⟩

/-! ### C5 -/

/-- Membership in the records of one flattened chat row. -/
theorem mem_flattenRow {r : ChatRow} {m : FlatMsg} :
    m ∈ flattenRow r ↔ ∃ c, r.chat = some c ∧ nameBlockedChat r.name = false ∧
      ∃ e, e ∈ c.messages ∧ m = mkFlatMsg r c e := by
  unfold flattenRow
  cases hc : r.chat with
  | none => simp
  | some c =>
    by_cases hb : nameBlockedChat r.name
    · simp [hb]
    · simp only [hb, Bool.false_eq_true, if_false, List.mem_map,
        Option.some.injEq, Bool.not_eq_true]
      constructor
      · rintro ⟨e, he, rfl⟩
        exact ⟨c, rfl, trivial, e, he, rfl⟩
      · rintro ⟨c2, hc2, hb2, e, he, hm⟩
        cases hc2
        exact ⟨e, he, hm.symm⟩

/-- Membership in the whole flattened output. -/
theorem mem_parseChatMessages {rows : List ChatRow} {m : FlatMsg} :
    m ∈ parseChatMessages rows ↔ ∃ r, r ∈ rows ∧ m ∈ flattenRow r := by
  induction rows with
  | nil => simp [parseChatMessages]
  | cons r rs ih =>
    simp only [parseChatMessages, List.mem_append, ih, List.mem_cons]
    constructor
    · rintro (h | ⟨r2, hr2, hm2⟩)
      · exact ⟨r, Or.inl rfl, h⟩
      · exact ⟨r2, Or.inr hr2, hm2⟩
    · rintro ⟨r2, hr2 | hr2, hm2⟩
      · cases hr2
        exact Or.inl hm2
      · exact Or.inr ⟨r2, hr2, hm2⟩

/-- C5 (amended): a conversation whose blob fails to decode is skipped
while flattening continues with the remaining rows, and a conversation
id is recoverable from the flattened output exactly when its row decodes,
its user name is not denylisted, and its message map is non-empty (a
message-less conversation silently contributes no rows). -/
theorem flattening_skip_and_id_recovery :
    (∀ (r : ChatRow) (rows : List ChatRow), r.chat = none →
      parseChatMessages (r :: rows) = parseChatMessages rows) ∧
    (∀ (rows : List ChatRow) (cid : Option String),
      (∃ m, m ∈ parseChatMessages rows ∧ m.chat_id = cid) ↔
      (∃ r, r ∈ rows ∧ ∃ c, r.chat = some c ∧ nameBlockedChat r.name = false ∧
        c.messages ≠ [] ∧ c.id = cid)) := by
  constructor
  · intro r rows h
    simp [parseChatMessages, flattenRow, h]
  · intro rows cid
    constructor
    · rintro ⟨m, hm, hcid⟩
      rcases mem_parseChatMessages.mp hm with ⟨r, hr, hmr⟩
      rcases mem_flattenRow.mp hmr with ⟨c, hc, hb, e, he, hme⟩
      refine ⟨r, hr, c, hc, hb, ?_, ?_⟩
      · intro hnil
        rw [hnil] at he
        simp at he
      · rw [← hcid, hme]
        rfl
    · rintro ⟨r, hr, c, hc, hb, hne, hid⟩
      cases hmsg : c.messages with
      | nil => exact absurd hmsg hne
      | cons e es =>
        refine ⟨mkFlatMsg r c e, ?_, hid⟩
        exact mem_parseChatMessages.mpr
          ⟨r, hr, mem_flattenRow.mpr ⟨c, hc, hb, e, by rw [hmsg]; exact List.mem_cons_self _ _, rfl⟩⟩

/-- Witness for C5: a row with an undecodable blob is skipped while
`rowA` still flattens, and `rowA`'s conversation id `A` is recoverable. -/
theorem flattening_skip_and_id_recovery_check :
    parseChatMessages (exBadRow :: [rowA]) = parseChatMessages [rowA] ∧
    (∃ m, m ∈ parseChatMessages [rowA] ∧ m.chat_id = some "A") :=
  ⟨flattening_skip_and_id_recovery.1 exBadRow [rowA] rfl,
   (flattening_skip_and_id_recovery.2 [rowA] (some "A")).mpr
     ⟨rowA, List.mem_cons_self _ _, chatA, rfl, rfl, by decide, rfl⟩⟩

/-- C5 is false as stated: `exEmptyConv` decodes, is not denylisted and
has conversation id `A`, yet the flattened output is empty — its id is
not recoverable even though the conversation is neither malformed nor
denylisted. -/
theorem flattening_drops_empty_conversation :
    parseChatMessages [exEmptyConv] = [] ∧
    exEmptyConv.chat = some chatEmptyMsgs ∧ chatEmptyMsgs.id = some "A" ∧
    nameBlockedChat exEmptyConv.name = false :=
  ⟨rfl, rfl, rfl, rfl⟩

/-! ### C6 -/

/-- C6 (confirmed): the classification rules are tested in a fixed
order — "bad" (rating -1 or last status "stepOn") first, then "good"
(rating +1 or last status "like"), then "improve" — and the first
matching rule wins; in particular rating -1 with last status "improve"
classifies as "bad" with the rating free-text comment, and rating +1
with last status "stepOn" classifies as "bad". -/
theorem feedback_rule_priority :
    (∀ d : FeedbackData,
      d.rating = some (-1) ∨ d.feedbackStatus.getLast? = some "stepOn" →
      classifyFeedback d = some ("bad", d.ratingText)) ∧
    (∀ d : FeedbackData,
      ¬(d.rating = some (-1) ∨ d.feedbackStatus.getLast? = some "stepOn") →
      d.rating = some 1 ∨ d.feedbackStatus.getLast? = some "like" →
      classifyFeedback d = some ("good", d.ratingText)) ∧
    (∀ d : FeedbackData,
      ¬(d.rating = some (-1) ∨ d.feedbackStatus.getLast? = some "stepOn") →
      ¬(d.rating = some 1 ∨ d.feedbackStatus.getLast? = some "like") →
      d.feedbackStatus.getLast? = some "improve" →
      classifyFeedback d = some ("improve", d.improveText)) ∧
    (∀ rt it : String,
      classifyFeedback (mkData (some (-1)) ["improve"] rt it) = some ("bad", rt)) ∧
    (∀ rt it : String,
      classifyFeedback (mkData (some 1) ["x", "stepOn"] rt it) = some ("bad", rt)) := by
  refine ⟨?_, ?_, ?_, ?_, ?_⟩
  · intro d h
    simp only [classifyFeedback]
    rw [if_pos h]
  · intro d h1 h2
    simp only [classifyFeedback]
    rw [if_neg h1, if_pos h2]
  · intro d h1 h2 h3
    simp only [classifyFeedback]
    rw [if_neg h1, if_neg h2, if_pos h3]
  · intro rt it
    simp [classifyFeedback, mkData]
  · intro rt it
    simp [classifyFeedback, mkData]

/-- Witness for C6: the bad rule fires on rating -1 alone and the good
rule fires on rating +1 when no bad signal is present. -/
theorem feedback_rule_priority_check :
    classifyFeedback dataBad = some ("bad", "rt") ∧
    classifyFeedback dataGood = some ("good", "rt") :=
  ⟨feedback_rule_priority.1 dataBad (Or.inl rfl),
   feedback_rule_priority.2.1 dataGood (by decide) (Or.inl rfl)⟩

/-! ### C7 -/

/-- No record emitted by the flattener carries a chat-denylisted name. -/
theorem chat_user_not_denylisted {rows : List ChatRow} {m : FlatMsg}
    (hm : m ∈ parseChatMessages rows) {n : String} (hn : m.user_name = some n) :
    n ∉ chatDenylist := by
  rcases mem_parseChatMessages.mp hm with ⟨r, hr, hmr⟩
  rcases mem_flattenRow.mp hmr with ⟨c, hc, hb, e, he, hme⟩
  have hname : r.name = some n := by
    rw [hme] at hn
    exact hn
  rw [hname] at hb
  simp [nameBlockedChat] at hb
  exact hb

/-- A record retained by the checked stage carries the row's user name,
and that name passes the feedback denylist. -/
theorem processFeedbackChecked_name {r : FeedbackRow} {snap : SnapshotJson}
    {d : FeedbackData} {meta : MetaJson} {out : FeedbackOut}
    (h : processFeedbackChecked r snap d meta = some out) :
    out.user_name = r.name ∧ nameBlockedFeedback r.name = false := by
  unfold processFeedbackChecked at h
  cases hc : classifyFeedback d with
  | none => simp [hc] at h
  | some rc =>
    obtain ⟨ratingStr, c⟩ := rc
    simp only [hc] at h
    by_cases hb : nameBlockedFeedback r.name
    · rw [if_pos hb] at h
      exact absurd h (by simp)
    · have hbf : nameBlockedFeedback r.name = false := by
        cases hbv : nameBlockedFeedback r.name with
        | false => rfl
        | true => exact absurd hbv hb
      refine ⟨?_, hbf⟩
      rw [if_neg hb] at h
      cases hmi : meta.message_id with
      | none => simp [hmi] at h
      | some mid =>
        simp only [hmi] at h
        by_cases h1 : mid = ""
        · rw [if_pos h1] at h
          exact absurd h (by simp)
        · rw [if_neg h1] at h
          by_cases h2 : snap.messages = []
          · rw [if_pos h2] at h
            exact absurd h (by simp)
          · rw [if_neg h2] at h
            cases hl : lookupMsg snap.messages mid with
            | none => simp [hl] at h
            | some answer =>
              simp only [hl, Option.some.injEq] at h
              rw [← h]

/-- A row whose `snapshot` blob fails to decode is skipped. -/
theorem processFeedbackRow_snapshot_none {r : FeedbackRow}
    (hs : r.snapshot = none) : processFeedbackRow r = none := by
  obtain ⟨rid, ruid, rname, rsnap, rdata, rmeta⟩ := r
  dsimp only at hs
  subst hs
  rfl

/-- A row whose `meta` blob fails to decode is skipped. -/
theorem processFeedbackRow_meta_none {r : FeedbackRow}
    (hm : r.meta = none) : processFeedbackRow r = none := by
  obtain ⟨rid, ruid, rname, rsnap, rdata, rmeta⟩ := r
  dsimp only at hm
  subst hm
  cases rsnap <;> cases rdata <;> rfl

/-- A retained feedback record carries the row's user name, and that
name is not feedback-denylisted. -/
theorem processFeedbackRow_name {r : FeedbackRow} {out : FeedbackOut}
    (h : processFeedbackRow r = some out) :
    out.user_name = r.name ∧ nameBlockedFeedback r.name = false := by
  cases hsnap : r.snapshot with
  | none =>
    rw [processFeedbackRow_snapshot_none hsnap] at h
    exact absurd h (by simp)
  | some snap =>
    cases hdata : r.data with
    | none =>
      rw [processFeedbackRow_data_none hdata] at h
      exact absurd h (by simp)
    | some d =>
      cases hmeta : r.meta with
      | none =>
        rw [processFeedbackRow_meta_none hmeta] at h
        exact absurd h (by simp)
      | some meta =>
        rw [processFeedbackRow_eq hsnap hdata hmeta] at h
        exact processFeedbackChecked_name h

/-- C7 (amended): each path enforces its own denylist — no flattened
record, chat-view row, or retained feedback record carries a user name
on its path's denylist (`{dali, cz, ' cz'}` for the chat path and the
strictly smaller `{cz, ' cz'}` for the feedback path). -/
theorem denylists_enforced_per_path :
    (∀ (rows : List ChatRow) (m : FlatMsg), m ∈ parseChatMessages rows →
      ∀ n, m.user_name = some n → n ∉ chatDenylist) ∧
    (∀ (rows : List ChatRow) (p : QAPair),
      p ∈ createChatView (parseChatMessages rows) →
      ∀ n, p.flat.user_name = some n → n ∉ chatDenylist) ∧
    (∀ (r : FeedbackRow) (out : FeedbackOut), processFeedbackRow r = some out →
      ∀ n, out.user_name = some n → n ∉ feedbackDenylist) := by
  refine ⟨?_, ?_, ?_⟩
  · intro rows m hm n hn
    exact chat_user_not_denylisted hm hn
  · intro rows p hp n hn
    exact chat_user_not_denylisted (mem_createChatView hp).1 hn
  · intro r out hout n hn
    rcases processFeedbackRow_name hout with ⟨hname, hb⟩
    rw [hname] at hn
    rw [hn] at hb
    simp [nameBlockedFeedback] at hb
    exact hb

/-- Witness for C7: the names carried by concrete outputs of each path
avoid that path's denylist. -/
theorem denylists_enforced_per_path_check :
    "alice" ∉ chatDenylist ∧ "dali" ∉ feedbackDenylist :=
  ⟨denylists_enforced_per_path.1 [rowA] (mkFlatMsg rowA chatA
      ("m1", mkNode (some "user") none none (some 10) (some "qA")))
      (by decide) "alice" rfl,
   denylists_enforced_per_path.2.2 exDali exDaliOut rfl "dali" rfl⟩

/-- C7 is false as stated: the feedback path retains a record for user
`dali` although `dali` is on the chat path's denylist — the two paths do
not enforce the same exclusion set. -/
theorem feedback_path_passes_chat_denylisted_name :
    processFeedbackRow exDali = some exDaliOut ∧
    exDaliOut.user_name = some "dali" ∧
    "dali" ∈ chatDenylist ∧ "dali" ∉ feedbackDenylist :=
  ⟨rfl, rfl, by decide, by decide⟩

/-! ### C8 -/

/-- C8 (amended): aliases are renamed before the denylist filter runs,
so a surviving model identifier is never on the denylist and is always
the rename of some input identifier; but because the rename happens
first, a record whose raw model is 星伴V1.1 is renamed to 聆境 1.1 and
retained rather than excluded (see the counterexample). -/
theorem model_rename_then_exclude :
    renameModel "星伴V1.1" = "聆境 1.1" ∧ renameModel "聆镜 1.1" = "聆境 1.1" ∧
    (∀ (ms : List String) (m : String), m ∈ preprocessModels ms →
      m ∉ notUseModelList ∧ ∃ m0, m0 ∈ ms ∧ renameModel m0 = m) := by
  refine ⟨rfl, rfl, ?_⟩
  intro ms m hm
  rcases List.mem_filter.mp hm with ⟨hmap, hflt⟩
  constructor
  · simpa using hflt
  · rcases List.mem_map.mp hmap with ⟨m0, hm0, hr⟩
    exact ⟨m0, hm0, hr⟩

/-- Witness for C8: the alias 聆镜 1.1 survives preprocessing as the
canonical 聆境 1.1, which is not denylisted. -/
theorem model_rename_then_exclude_check :
    "聆境 1.1" ∉ notUseModelList ∧
    ∃ m0, m0 ∈ ["聆镜 1.1"] ∧ renameModel m0 = "聆境 1.1" :=
  model_rename_then_exclude.2.2 ["聆镜 1.1"] "聆境 1.1" (by decide)

/-- C8 is false as stated: 星伴V1.1 is on the deprecated-model denylist,
yet a record with that model survives preprocessing (renamed to
聆境 1.1) and contributes to counts — the rename runs before the
exclusion, so the denylist entry 星伴V1.1 never matches. -/
theorem denylisted_model_contributes :
    preprocessModels ["星伴V1.1"] = ["聆境 1.1"] ∧
    "星伴V1.1" ∈ notUseModelList ∧
    modelUsageCount ["星伴V1.1"] "聆境 1.1" = 1 :=
  ⟨rfl, by decide, rfl⟩

/-! ### C9 -/

/-- C9 (confirmed): every ratio with a zero denominator is defined as 0:
the overall feedback ratio is 0 when the query count is 0, and a day
with usage count 0 has all four derived rates equal to 0. -/
theorem zero_denominator_rates :
    (∀ nFeedback : Nat, overallFeedbackRatio nFeedback 0 = 0) ∧
    (∀ d : DailyCounts, d.usage = 0 →
      computeDailyRates d =
        { feedback_ratio := 0, excellent_rate := 0, error_rate := 0,
          improve_rate := 0 }) := by
  constructor
  · intro nFeedback
    simp [overallFeedbackRatio]
  · intro d hd
    simp [computeDailyRates, hd]

/-- Witness for C9: a day with 3 feedbacks, 1 good, 1 bad, 1 improve but
0 usage yields all-zero rates, and the overall ratio with 5 feedbacks
over 0 queries is 0. -/
theorem zero_denominator_rates_check :
    overallFeedbackRatio 5 0 = 0 ∧
    computeDailyRates ⟨0, 3, 1, 1, 1⟩ =
      { feedback_ratio := 0, excellent_rate := 0, error_rate := 0,
        improve_rate := 0 } :=
  ⟨zero_denominator_rates.1 5, zero_denominator_rates.2 ⟨0, 3, 1, 1, 1⟩ rfl⟩

/-! ### C10 -/

/-- C10 (amended): a missing database file makes the engine layer raise,
but the retrieval entry points `get_chat_data` / `get_feedback_data`
catch every failure and return an empty result instead of propagating
it; any internal error is converted to an empty output. -/
theorem db_missing_swallowed :
    getDbEngineM none = Except.error "FileNotFoundError" ∧
    getChatData none = [] ∧ getFeedbackData none = [] ∧
    (∀ (db : Option DB) (e : String), getChatDataE db = Except.error e →
      getChatData db = []) ∧
    (∀ (db : Option DB) (e : String), getFeedbackDataE db = Except.error e →
      getFeedbackData db = []) := by
  refine ⟨rfl, rfl, rfl, ?_, ?_⟩
  · intro db e h
    unfold getChatData
    rw [h]
  · intro db e h
    unfold getFeedbackData
    rw [h]

/-- Witness for C10: both entry points return empty on the missing-file
failure. -/
theorem db_missing_swallowed_check :
    getChatData none = [] ∧ getFeedbackData none = [] :=
  ⟨db_missing_swallowed.2.2.2.1 none "FileNotFoundError" rfl,
   db_missing_swallowed.2.2.2.2 none "FileNotFoundError" rfl⟩

/-- C10 is false as stated: with the database missing, the inner
pipeline fails with `FileNotFoundError`, yet both entry points return a
successful empty result — the error is swallowed, not surfaced to the
caller. -/
theorem db_missing_not_propagated :
    getChatDataE none = Except.error "FileNotFoundError" ∧
    getChatData none = [] ∧
    getFeedbackDataE none = Except.error "FileNotFoundError" ∧
    getFeedbackData none = [] :=
  ⟨rfl, rfl, rfl, rfl⟩
